import Mathlib

/-!
Shallow embedding of `src/cmd.c` of the Mini-Shell repository: the
redirection manager (`file_descriptor`, `both_redirections`,
`input_redirection`, `output_redirection`, `error_redirection`,
`command_redirections`) and the command evaluator (`shell_cd`,
`shell_exit`, `parse_simple`, `parse_command`).

Operating-system behaviour (open, chdir, fork, execvp/waitpid) is
abstracted into an oracle `Env`; the evaluator threads an explicit
`ShellState` (bindings of the three standard descriptors and the current
working directory) and emits a trace of `Event`s recording the observable
side effects (open/dup2 attempts on the standard descriptors, and forked
external commands).
-/

namespace MiniShell

/-- Model of a `word_t` object.  `id` is the object identity (the C
pointer value): the source compares redirect targets with pointer
equality (`s->err == s->out` in `command_redirections`), so two words
with the same text but distinct identities are distinct objects.
`str` is the string `get_word` produces for this word (`none` models
`get_word` returning `NULL`). -/
structure Word where
  id : Nat
  str : Option String
deriving DecidableEq, Repr

/-- Result of `get_word` applied to a possibly-NULL `word_t *`. -/
def get_word (w : Option Word) : Option String :=
  w.bind Word.str

/-- The two append bits of `simple_command_t.io_flags`
(`IO_OUT_APPEND` and `IO_ERR_APPEND`). -/
structure IOFlags where
  outAppend : Bool
  errAppend : Bool
deriving DecidableEq, Repr

/-- Model of `simple_command_t`: verb, params and the three redirect
targets are possibly-NULL pointers to `word_t`.  The field `in` of the C
struct is named `inp` (`in` is reserved in Lean). -/
structure SimpleCommand where
  verb : Option Word
  params : Option Word
  inp : Option Word
  out : Option Word
  err : Option Word
  io_flags : IOFlags
deriving DecidableEq, Repr

/-- The operator tags of `command_t.op` used by `parse_command`.
`OP_DUMMY` stands for any tag reaching the `default` arm of the switch. -/
inductive Operator where
  | OP_NONE
  | OP_SEQUENTIAL
  | OP_PARALLEL
  | OP_CONDITIONAL_NZERO
  | OP_CONDITIONAL_ZERO
  | OP_PIPE
  | OP_DUMMY
deriving DecidableEq, Repr

/-- Model of `command_t *`: `null` is the NULL pointer, `node` a
command with operator tag, possibly-NULL simple command, and the two
children (themselves possibly NULL). -/
inductive Command where
  | null
  | node (op : Operator) (scmd : Option SimpleCommand) (cmd1 cmd2 : Command)
deriving DecidableEq, Repr

/-- Flags passed to `open`; the bits of `O_RDONLY`/`O_WRONLY`/`O_CREAT`/
`O_TRUNC`/`O_APPEND` that `cmd.c` combines. -/
structure OpenFlags where
  rdonly : Bool
  wronly : Bool
  creat : Bool
  trunc : Bool
  append : Bool
deriving DecidableEq, Repr

/-- `O_WRONLY | O_CREAT | O_TRUNC`, the flags `both_redirections` uses
for the error stream (also `output_redirection`/`error_redirection`
without the append bit). -/
def flagsWCT : OpenFlags :=
  { rdonly := false, wronly := true, creat := true, trunc := true, append := false }

/-- `O_WRONLY | O_CREAT | O_TRUNC | O_APPEND`: `both_redirections` adds
`O_APPEND` to `flagsWCT` (`flags |= O_APPEND`) for the output stream;
the truncate bit remains set. -/
def flagsWCTA : OpenFlags :=
  { rdonly := false, wronly := true, creat := true, trunc := true, append := true }

/-- `O_WRONLY | O_CREAT | O_APPEND`, used when an append io-flag is set. -/
def flagsWCA : OpenFlags :=
  { rdonly := false, wronly := true, creat := true, trunc := false, append := true }

/-- `O_RDONLY | O_CREAT`, the flags of `input_redirection`. -/
def flagsRC : OpenFlags :=
  { rdonly := true, wronly := false, creat := true, trunc := false, append := false }

/-- What a standard descriptor is currently bound to: the descriptor
inherited at shell start (`std n`), or a file opened by a redirection. -/
inductive FDBinding where
  | std (n : Nat)
  | file (name : String) (flags : OpenFlags)
deriving DecidableEq, Repr

/-- Process state visible to this core: the bindings of descriptors
0/1/2 and the current working directory. -/
structure ShellState where
  stdin : FDBinding
  stdout : FDBinding
  stderr : FDBinding
  cwd : String
deriving DecidableEq, Repr

/-- Observable side-effect events of an evaluation.  `openFD name dst
flags ok` records `file_descriptor` calling `open` on `name` with
`flags` intending to `dup2` onto descriptor `dst` (`ok` tells whether
the open succeeded); `forkExec verb` records a forked child that
performs its redirections and `execvp`s the external command `verb`. -/
inductive Event where
  | openFD (name : String) (dst : Nat) (flags : OpenFlags) (ok : Bool)
  | forkExec (verb : String)
deriving DecidableEq, Repr

/-- Oracle for the operating-system calls the evaluator performs:
whether `open` succeeds for a given name and flag set, whether `chdir`
to a given path succeeds, whether `get_argv` returns NULL (allocation
failure), whether `fork` fails, and the `WEXITSTATUS` the parent
observes after waiting for the forked child running a given verb. -/
structure Env where
  openOk : String → OpenFlags → Bool
  chdirOk : String → Bool
  argvNull : Bool
  forkFail : Bool
  execStatus : String → Nat

/-- Updates the binding of descriptor `dst` (the effect of `dup2(fd, dst)`
for descriptors 0, 1, 2). -/
def setFD (st : ShellState) (dst : Nat) (b : FDBinding) : ShellState :=
  if dst = 0 then { st with stdin := b }
  else if dst = 1 then { st with stdout := b }
  else if dst = 2 then { st with stderr := b }
  else st

/-- `file_descriptor(src, dst, flags)` of `cmd.c`: if `src` is NULL,
return; open `src`; if the open fails, return silently; otherwise
`dup2` the new descriptor onto `dst` and close it. -/
def file_descriptor (src : Option String) (dst : Nat) (flags : OpenFlags)
    (env : Env) (st : ShellState) : ShellState × List Event :=
  match src with
  | none => (st, [])
  | some name =>
    if env.openOk name flags then
      (setFD st dst (.file name flags), [.openFD name dst flags true])
    else
      (st, [.openFD name dst flags false])

/-- `both_redirections(out_err)` of `cmd.c`: with
`flags = O_WRONLY | O_CREAT | O_TRUNC`, redirect the error stream to
the file, then add `O_APPEND` to the same flags and redirect the output
stream to the same file. -/
def both_redirections (out_err : Option Word) (env : Env) (st : ShellState) :
    ShellState × List Event :=
  match out_err with
  | none => (st, [])
  | some w =>
    let file := get_word (some w)
    let r1 := file_descriptor file 2 flagsWCT env st
    let r2 := file_descriptor file 1 flagsWCTA env r1.1
    (r2.1, r1.2 ++ r2.2)

/-- `input_redirection(in)` of `cmd.c`: redirect standard input to the
file, opened `O_RDONLY | O_CREAT`. -/
def input_redirection (inw : Option Word) (env : Env) (st : ShellState) :
    ShellState × List Event :=
  match inw with
  | none => (st, [])
  | some w => file_descriptor (get_word (some w)) 0 flagsRC env st

/-- `output_redirection(out, io_flags)` of `cmd.c`: redirect standard
output; append when `IO_OUT_APPEND` is set, truncate otherwise. -/
def output_redirection (out : Option Word) (io_flags : IOFlags)
    (env : Env) (st : ShellState) : ShellState × List Event :=
  match out with
  | none => (st, [])
  | some w =>
    let flags := if io_flags.outAppend then flagsWCA else flagsWCT
    file_descriptor (get_word (some w)) 1 flags env st

/-- `error_redirection(err, io_flags)` of `cmd.c`: redirect standard
error; append when `IO_ERR_APPEND` is set, truncate otherwise. -/
def error_redirection (err : Option Word) (io_flags : IOFlags)
    (env : Env) (st : ShellState) : ShellState × List Event :=
  match err with
  | none => (st, [])
  | some w =>
    let flags := if io_flags.errAppend then flagsWCA else flagsWCT
    file_descriptor (get_word (some w)) 2 flags env st

/-- The `else` branch of `command_redirections`: the three independent
redirections, applied input, output, error, in that order. -/
def separate_redirections (s : SimpleCommand) (env : Env) (st : ShellState) :
    ShellState × List Event :=
  let r1 := input_redirection s.inp env st
  let r2 := output_redirection s.out s.io_flags env r1.1
  let r3 := error_redirection s.err s.io_flags env r2.1
  (r3.1, r1.2 ++ r2.2 ++ r3.2)

/-- `command_redirections(s)` of `cmd.c`: if `s->err` and `s->out` are
both non-NULL and are the same pointer (`s->err == s->out`), apply the
merged `both_redirections`; otherwise apply the three independent
redirections. -/
def command_redirections (s : SimpleCommand) (env : Env) (st : ShellState) :
    ShellState × List Event :=
  match s.err, s.out with
  | some ew, some ow =>
    if ew = ow then both_redirections s.out env st
    else separate_redirections s env st
  | _, _ => separate_redirections s env st

/-- Modelled from the spec: the sentinel `SHELL_EXIT` is defined in the
header `cmd.h`, which is not under `src/`; the spec only requires a
distinguished value outside the ranges of the ordinary statuses (0, 1,
`WEXITSTATUS` values 0..255) and of the malformed-input status -1. -/
def SHELL_EXIT : Int := -100

/-- `shell_cd(dir)` of `cmd.c`: `chdir(get_word(dir))`, the C `int`
result of `chdir` (0 on success, -1 on failure) converted to `bool`
(`false` on success, `true` on failure).  A NULL path makes `chdir`
fail; a successful `chdir` moves the working directory to the path and
a failed one leaves it unchanged. -/
def shell_cd (dir : Option Word) (env : Env) (st : ShellState) :
    Bool × ShellState :=
  match get_word dir with
  | none => (true, st)
  | some path =>
    if env.chdirOk path then (false, { st with cwd := path })
    else (true, st)

/-- `shell_exit()` of `cmd.c`: returns `SHELL_EXIT`. -/
def shell_exit : Int := SHELL_EXIT

/-- `parse_simple(s, level, father)` of `cmd.c`.  NULL command, NULL
verb, or `get_word` returning NULL: -1 with no side effects.  Verb
`"cd"`: save the stdout/stderr bindings (`dup`), apply the
redirections, `shell_cd` on the params, restore the saved stdout/stderr
bindings (`dup2`), return the `bool` result as an `int` (0 success, 1
failure).  Verb `"exit"`: return `shell_exit()`.  Anything else is an
external command: if `get_argv` returns NULL, -1; fork, and if the fork
fails, -1; otherwise the child applies the redirections and `execvp`s
the command (exiting 1 if that fails) while the parent waits and
returns `WEXITSTATUS` of the child's status, a value in 0..255
abstracted by the oracle. -/
def parse_simple (s : Option SimpleCommand) (_level : Nat) (_father : Command)
    (env : Env) (st : ShellState) : Int × ShellState × List Event :=
  match s with
  | none => (-1, st, [])
  | some s =>
    match get_word s.verb with
    | none => (-1, st, [])
    | some cmd_name =>
      if cmd_name = "cd" then
        let saved_stdout := st.stdout
        let saved_stderr := st.stderr
        let r := command_redirections s env st
        let cd := shell_cd s.params env r.1
        let st2 := { cd.2 with stdout := saved_stdout, stderr := saved_stderr }
        ((if cd.1 then 1 else 0), st2, r.2)
      else if cmd_name = "exit" then
        (shell_exit, st, [])
      else
        if env.argvNull then (-1, st, [])
        else if env.forkFail then (-1, st, [])
        else (((env.execStatus cmd_name) % 256 : Nat), st, [.forkExec cmd_name])

/-- `parse_command(c, level, father)` of `cmd.c`.  NULL command: -1.
`OP_NONE` with NULL `scmd`: -1; otherwise `parse_simple`.
`OP_SEQUENTIAL`: evaluate `cmd1`, discard its status, evaluate `cmd2`,
return its status.  `OP_PARALLEL` and `OP_PIPE`: the switch arms only
`break`, so control falls through to the trailing `return 0` with
neither child evaluated.  `OP_CONDITIONAL_NZERO`: evaluate `cmd1`; if
its status is non-zero, evaluate and return `cmd2`, else return
`cmd1`'s status.  `OP_CONDITIONAL_ZERO`: the same with the test
reversed.  Any other operator: the `default` arm returns `SHELL_EXIT`. -/
def parse_command : Command → Nat → Command → Env → ShellState →
    Int × ShellState × List Event
  | .null, _, _, _, st => (-1, st, [])
  | c@(.node .OP_NONE scmd _ _), level, _father, env, st =>
    match scmd with
    | none => (-1, st, [])
    | some s => parse_simple (some s) level c env st
  | c@(.node .OP_SEQUENTIAL _ c1 c2), level, _father, env, st =>
    let r1 := parse_command c1 (level + 1) c env st
    let r2 := parse_command c2 (level + 1) c env r1.2.1
    (r2.1, r2.2.1, r1.2.2 ++ r2.2.2)
  | .node .OP_PARALLEL _ _ _, _, _, _, st => (0, st, [])
  | c@(.node .OP_CONDITIONAL_NZERO _ c1 c2), level, _father, env, st =>
    let r1 := parse_command c1 (level + 1) c env st
    if r1.1 ≠ 0 then
      let r2 := parse_command c2 (level + 1) c env r1.2.1
      (r2.1, r2.2.1, r1.2.2 ++ r2.2.2)
    else r1
  | c@(.node .OP_CONDITIONAL_ZERO _ c1 c2), level, _father, env, st =>
    let r1 := parse_command c1 (level + 1) c env st
    if r1.1 = 0 then
      let r2 := parse_command c2 (level + 1) c env r1.2.1
      (r2.1, r2.2.1, r1.2.2 ++ r2.2.2)
    else r1
  | .node .OP_PIPE _ _ _, _, _, _, st => (0, st, [])
  | .node .OP_DUMMY _ _ _, _, _, _, st => (SHELL_EXIT, st, [])

/-- `run_in_parallel` of `cmd.c`: an unimplemented stub that returns
`true`; `parse_command` never calls it. -/
def run_in_parallel (_cmd1 _cmd2 : Command) (_level : Nat) (_father : Command) : Bool :=
  true

/-- `run_on_pipe` of `cmd.c`: an unimplemented stub that returns
`true`; `parse_command` never calls it. -/
def run_on_pipe (_cmd1 _cmd2 : Command) (_level : Nat) (_father : Command) : Bool :=
  true

/-! Concrete fixtures used to evaluate the evaluator on closed inputs. -/

/-- Initial state: the three inherited standard descriptors, working
directory the root. -/
def st0 : ShellState :=
  { stdin := .std 0, stdout := .std 1, stderr := .std 2, cwd := "/" }

/-- Benign oracle: every open and chdir succeeds, no allocation or fork
failures, every external command exits 0. -/
def env0 : Env :=
  { openOk := fun _ _ => true, chdirOk := fun _ => true,
    argvNull := false, forkFail := false, execStatus := fun _ => 0 }

/-- Oracle under which the external command named a exits 1, the one
named b exits 7, and every other exits 0. -/
def envAB : Env :=
  { env0 with execStatus := fun v => if v = "a" then 1 else if v = "b" then 7 else 0 }

/-- Oracle under which every waited-for child reports status 1, as when
`execvp` fails and the child runs `exit(1)`. -/
def envFail1 : Env :=
  { env0 with execStatus := fun _ => 1 }

/-- Oracle whose chdir always fails. -/
def envNoCd : Env :=
  { env0 with chdirOk := fun _ => false }

/-- A leaf node: a simple command with the given verb, no params and no
redirects. -/
def leaf (v : String) : Command :=
  .node .OP_NONE
    (some { verb := some ⟨0, some v⟩, params := none, inp := none,
            out := none, err := none, io_flags := ⟨false, false⟩ })
    .null .null

/-- A simple command whose verb is NULL. -/
def sNoVerb : SimpleCommand :=
  { verb := none, params := none, inp := none, out := none, err := none,
    io_flags := ⟨false, false⟩ }

/-- A simple command whose output and error targets are distinct word
objects that both name the file f (as the forms that parse two separate
redirect words produce). -/
def s5 : SimpleCommand :=
  { verb := some ⟨2, some "x"⟩, params := none, inp := none,
    out := some ⟨0, some "f"⟩, err := some ⟨1, some "f"⟩,
    io_flags := ⟨false, false⟩ }

/-- The word object shared by the out and err fields of `s10`. -/
def wg : Word := ⟨3, some "g"⟩

/-- The input word of `s10`. -/
def wh : Word := ⟨4, some "h"⟩

/-- A simple command whose out and err are the same word object and
which also carries an input redirect. -/
def s10 : SimpleCommand :=
  { verb := some ⟨5, some "x"⟩, params := none, inp := some wh,
    out := some wg, err := some wg, io_flags := ⟨false, false⟩ }

/-- A cd command whose parameter word is the path /tmp. -/
def s9cd : SimpleCommand :=
  { verb := some ⟨6, some "cd"⟩, params := some ⟨7, some "/tmp"⟩, inp := none,
    out := none, err := none, io_flags := ⟨false, false⟩ }

/-! Helper lemmas about the redirection manager. -/

/-- `dup2` onto a standard descriptor never touches the working
directory. -/
theorem setFD_cwd (st : ShellState) (dst : Nat) (b : FDBinding) :
    (setFD st dst b).cwd = st.cwd := by
  unfold setFD
  split
  · rfl
  · split
    · rfl
    · split
      · rfl
      · rfl

/-- `file_descriptor` never touches the working directory. -/
theorem file_descriptor_cwd (src : Option String) (dst : Nat) (flags : OpenFlags)
    (env : Env) (st : ShellState) :
    (file_descriptor src dst flags env st).1.cwd = st.cwd := by
  cases src with
  | none => rfl
  | some name =>
    simp only [file_descriptor]
    split
    · exact setFD_cwd st dst _
    · rfl

/-- `both_redirections` never touches the working directory. -/
theorem both_redirections_cwd (w : Option Word) (env : Env) (st : ShellState) :
    (both_redirections w env st).1.cwd = st.cwd := by
  cases w with
  | none => rfl
  | some w =>
    simp only [both_redirections]
    exact (file_descriptor_cwd _ _ _ _ _).trans (file_descriptor_cwd _ _ _ _ _)

/-- `input_redirection` never touches the working directory. -/
theorem input_redirection_cwd (w : Option Word) (env : Env) (st : ShellState) :
    (input_redirection w env st).1.cwd = st.cwd := by
  cases w with
  | none => rfl
  | some w => exact file_descriptor_cwd _ _ _ _ _

/-- `output_redirection` never touches the working directory. -/
theorem output_redirection_cwd (w : Option Word) (io : IOFlags) (env : Env) (st : ShellState) :
    (output_redirection w io env st).1.cwd = st.cwd := by
  cases w with
  | none => rfl
  | some w => exact file_descriptor_cwd _ _ _ _ _

/-- `error_redirection` never touches the working directory. -/
theorem error_redirection_cwd (w : Option Word) (io : IOFlags) (env : Env) (st : ShellState) :
    (error_redirection w io env st).1.cwd = st.cwd := by
  cases w with
  | none => rfl
  | some w => exact file_descriptor_cwd _ _ _ _ _

/-- `separate_redirections` never touches the working directory. -/
theorem separate_redirections_cwd (s : SimpleCommand) (env : Env) (st : ShellState) :
    (separate_redirections s env st).1.cwd = st.cwd := by
  simp only [separate_redirections]
  exact (error_redirection_cwd _ _ _ _).trans
    ((output_redirection_cwd _ _ _ _).trans (input_redirection_cwd _ _ _))

/-- `command_redirections` never touches the working directory. -/
theorem command_redirections_cwd (s : SimpleCommand) (env : Env) (st : ShellState) :
    (command_redirections s env st).1.cwd = st.cwd := by
  unfold command_redirections
  split
  · split
    · exact both_redirections_cwd _ _ _
    · exact separate_redirections_cwd _ _ _
  · exact separate_redirections_cwd _ _ _

/-- Full evaluation of `both_redirections` on a word that carries a
string: the error stream is redirected first with truncate flags, then
the output stream with the same flags plus append, both onto the same
file; the trace records the two opens in that order. -/
theorem both_redirections_eq (w : Word) (f : String) (env : Env) (st : ShellState)
    (hf : w.str = some f) :
    both_redirections (some w) env st =
      ((if env.openOk f flagsWCTA then
          { (if env.openOk f flagsWCT then { st with stderr := .file f flagsWCT } else st)
              with stdout := .file f flagsWCTA }
        else
          (if env.openOk f flagsWCT then { st with stderr := .file f flagsWCT } else st)),
       [Event.openFD f 2 flagsWCT (env.openOk f flagsWCT),
        Event.openFD f 1 flagsWCTA (env.openOk f flagsWCTA)]) := by
  simp only [both_redirections, get_word, Option.bind, hf, file_descriptor]
  cases h1 : env.openOk f flagsWCT <;> cases h2 : env.openOk f flagsWCTA <;>
    simp [setFD, h1, h2]

/-- `both_redirections` on a word whose string is NULL does nothing. -/
theorem both_redirections_none (w : Word) (env : Env) (st : ShellState)
    (hf : w.str = none) :
    both_redirections (some w) env st = (st, []) := by
  simp [both_redirections, get_word, Option.bind, hf, file_descriptor]

/-! The claim theorems. -/

/-- Claim C7: for every Sequential node, the left child is evaluated
first and its status discarded, then the right child is evaluated in
the resulting state; the node's status and final state are the right
child's and the event trace is the left trace followed by the right
trace, regardless of the left status — the left child's failure never
prevents the right child from running. -/
theorem sequential_runs_both_returns_right (A B : Command) (scmd : Option SimpleCommand)
    (level : Nat) (father : Command) (env : Env) (st : ShellState) :
    parse_command (.node .OP_SEQUENTIAL scmd A B) level father env st =
      ((parse_command B (level + 1) (.node .OP_SEQUENTIAL scmd A B) env
          (parse_command A (level + 1) (.node .OP_SEQUENTIAL scmd A B) env st).2.1).1,
       (parse_command B (level + 1) (.node .OP_SEQUENTIAL scmd A B) env
          (parse_command A (level + 1) (.node .OP_SEQUENTIAL scmd A B) env st).2.1).2.1,
       (parse_command A (level + 1) (.node .OP_SEQUENTIAL scmd A B) env st).2.2 ++
         (parse_command B (level + 1) (.node .OP_SEQUENTIAL scmd A B) env
            (parse_command A (level + 1) (.node .OP_SEQUENTIAL scmd A B) env st).2.1).2.2) :=
  rfl

/-- Claim C2: contrary to the claimed pipe semantics, the `OP_PIPE` arm
of `parse_command` only breaks out of the switch and falls through to
`return 0`: neither child is evaluated (the trace is empty, so no
process is created and no descriptor is wired) and the status is 0, not
the right stage's exit status. -/
theorem pipe_unimplemented_returns_zero (A B : Command) (scmd : Option SimpleCommand)
    (level : Nat) (father : Command) (env : Env) (st : ShellState) :
    parse_command (.node .OP_PIPE scmd A B) level father env st = (0, st, []) :=
  rfl

/-- Claim C3: contrary to the claimed parallel semantics, the
`OP_PARALLEL` arm of `parse_command` only breaks out of the switch and
falls through to `return 0`: neither child is evaluated (no forks, no
side effects, the state is unchanged) and the status is the constant 0
rather than the conjunction of the branch successes. -/
theorem parallel_unimplemented_returns_zero (A B : Command) (scmd : Option SimpleCommand)
    (level : Nat) (father : Command) (env : Env) (st : ShellState) :
    parse_command (.node .OP_PARALLEL scmd A B) level father env st = (0, st, []) :=
  rfl

/-- Claim C4: the verb exit returns the `SHELL_EXIT` sentinel with no
process created, but the verb quit is not recognised as a builtin: it
is executed as an external command (a child is forked that tries to
`execvp` quit, here failing and exiting 1), and the returned status 1
is not the sentinel. -/
theorem quit_runs_as_external_command :
    parse_command (leaf "exit") 0 .null envFail1 st0 = (SHELL_EXIT, st0, []) ∧
    parse_command (leaf "quit") 0 .null envFail1 st0 = (1, st0, [.forkExec "quit"]) ∧
    (1 : Int) ≠ SHELL_EXIT := by
  refine ⟨rfl, rfl, by decide⟩

/-- Claim C6: a NULL command node, an `OP_NONE` node with a NULL simple
command, a simple command with a NULL verb, and a NULL argument to
`parse_simple` all make the evaluator return -1 with the state
unchanged (no working-directory change, no descriptor change) and an
empty event trace (no process creation, no redirection), at every
recursion level. -/
theorem malformed_input_minus_one (level : Nat) (father : Command) (env : Env)
    (st : ShellState) (c1 c2 : Command) (s : SimpleCommand) (hverb : s.verb = none) :
    parse_command .null level father env st = (-1, st, []) ∧
    parse_command (.node .OP_NONE none c1 c2) level father env st = (-1, st, []) ∧
    parse_command (.node .OP_NONE (some s) c1 c2) level father env st = (-1, st, []) ∧
    parse_simple none level father env st = (-1, st, []) := by
  refine ⟨rfl, rfl, ?_, rfl⟩
  simp [parse_command, parse_simple, get_word, hverb]

/-- Witness for C6: the malformed cases evaluated at a concrete state,
command and simple command with NULL verb. -/
theorem malformed_input_minus_one_witness :
    sNoVerb.verb = none ∧
    parse_command (.node .OP_NONE (some sNoVerb) .null .null) 0 .null env0 st0 =
      (-1, st0, []) := by
  have h := malformed_input_minus_one 0 .null env0 st0 .null .null sNoVerb rfl
  exact ⟨rfl, h.2.2.1⟩

/-- Counterexample to claim C1.  The And node is the shell's `&&`
operator, `OP_CONDITIONAL_ZERO` (execute the second command only if the
first one returns zero).  At the concrete input And(a, b) where the
external command a exits 1 and b exits 7, the claim predicts that b is
evaluated and its status 7 returned; the code returns the left status 1
and the trace shows b was never forked. -/
theorem and_left_failure_skips_right :
    (parse_command (leaf "a") 1
        (.node .OP_CONDITIONAL_ZERO none (leaf "a") (leaf "b")) envAB st0).1 ≠ 0 ∧
    (parse_command (leaf "b") 1
        (.node .OP_CONDITIONAL_ZERO none (leaf "a") (leaf "b")) envAB st0).1 = 7 ∧
    parse_command (.node .OP_CONDITIONAL_ZERO none (leaf "a") (leaf "b")) 0 .null envAB st0 =
      (1, st0, [.forkExec "a"]) ∧
    (1 : Int) ≠ 7 := by
  exact ⟨by decide, rfl, rfl, by decide⟩

/-- Claim C1 (amended): for every And node And(A, B) — the
`OP_CONDITIONAL_ZERO` operator, the shell's conditional that executes
the second command only if the first one returns zero — the evaluator
evaluates A; if A's status is zero (success) it evaluates B and returns
B's status, with both children's events in the trace; if A's status is
non-zero (failure) it returns A's status, state and trace unchanged, so
B is never evaluated and B's side effects do not occur. -/
theorem and_runs_right_iff_left_succeeds (A B : Command) (scmd : Option SimpleCommand)
    (level : Nat) (father : Command) (env : Env) (st : ShellState) :
    ((parse_command A (level + 1) (.node .OP_CONDITIONAL_ZERO scmd A B) env st).1 = 0 →
      parse_command (.node .OP_CONDITIONAL_ZERO scmd A B) level father env st =
        ((parse_command B (level + 1) (.node .OP_CONDITIONAL_ZERO scmd A B) env
            (parse_command A (level + 1) (.node .OP_CONDITIONAL_ZERO scmd A B) env st).2.1).1,
         (parse_command B (level + 1) (.node .OP_CONDITIONAL_ZERO scmd A B) env
            (parse_command A (level + 1) (.node .OP_CONDITIONAL_ZERO scmd A B) env st).2.1).2.1,
         (parse_command A (level + 1) (.node .OP_CONDITIONAL_ZERO scmd A B) env st).2.2 ++
           (parse_command B (level + 1) (.node .OP_CONDITIONAL_ZERO scmd A B) env
              (parse_command A (level + 1) (.node .OP_CONDITIONAL_ZERO scmd A B) env st).2.1).2.2)) ∧
    ((parse_command A (level + 1) (.node .OP_CONDITIONAL_ZERO scmd A B) env st).1 ≠ 0 →
      parse_command (.node .OP_CONDITIONAL_ZERO scmd A B) level father env st =
        parse_command A (level + 1) (.node .OP_CONDITIONAL_ZERO scmd A B) env st) := by
  constructor
  · intro h
    simp [parse_command, h]
  · intro h
    simp [parse_command, h]

/-- Witness for the amended C1: And(c, b) where c exits 0 and b exits 7
evaluates both children and returns b's status 7. -/
theorem and_runs_right_iff_left_succeeds_witness :
    (parse_command (leaf "c") 1
        (.node .OP_CONDITIONAL_ZERO none (leaf "c") (leaf "b")) envAB st0).1 = 0 ∧
    parse_command (.node .OP_CONDITIONAL_ZERO none (leaf "c") (leaf "b")) 0 .null envAB st0 =
      (7, st0, [.forkExec "c", .forkExec "b"]) := by
  have h := (and_runs_right_iff_left_succeeds (leaf "c") (leaf "b") none 0 .null envAB st0).1 rfl
  exact ⟨rfl, h.trans rfl⟩

/-- Claim C8: for every Or node Or(A, B) — the `OP_CONDITIONAL_NZERO`
operator, the shell's conditional that executes the second command only
if the first one returns non-zero — the evaluator evaluates A; if A's
status is zero (success) it returns A's status, state and trace
unchanged, so B is never evaluated; if A's status is non-zero it
evaluates B and returns B's status, with both children's events in the
trace. -/
theorem or_skips_right_iff_left_succeeds (A B : Command) (scmd : Option SimpleCommand)
    (level : Nat) (father : Command) (env : Env) (st : ShellState) :
    ((parse_command A (level + 1) (.node .OP_CONDITIONAL_NZERO scmd A B) env st).1 = 0 →
      parse_command (.node .OP_CONDITIONAL_NZERO scmd A B) level father env st =
        parse_command A (level + 1) (.node .OP_CONDITIONAL_NZERO scmd A B) env st) ∧
    ((parse_command A (level + 1) (.node .OP_CONDITIONAL_NZERO scmd A B) env st).1 ≠ 0 →
      parse_command (.node .OP_CONDITIONAL_NZERO scmd A B) level father env st =
        ((parse_command B (level + 1) (.node .OP_CONDITIONAL_NZERO scmd A B) env
            (parse_command A (level + 1) (.node .OP_CONDITIONAL_NZERO scmd A B) env st).2.1).1,
         (parse_command B (level + 1) (.node .OP_CONDITIONAL_NZERO scmd A B) env
            (parse_command A (level + 1) (.node .OP_CONDITIONAL_NZERO scmd A B) env st).2.1).2.1,
         (parse_command A (level + 1) (.node .OP_CONDITIONAL_NZERO scmd A B) env st).2.2 ++
           (parse_command B (level + 1) (.node .OP_CONDITIONAL_NZERO scmd A B) env
              (parse_command A (level + 1) (.node .OP_CONDITIONAL_NZERO scmd A B) env st).2.1).2.2)) := by
  constructor
  · intro h
    simp [parse_command, h]
  · intro h
    simp [parse_command, h]

/-- Witness for C8: Or(a, b) where a exits 1 and b exits 7 evaluates
both children and returns b's status 7, while Or with a succeeding left
child would stop at the left child. -/
theorem or_skips_right_iff_left_succeeds_witness :
    (parse_command (leaf "a") 1
        (.node .OP_CONDITIONAL_NZERO none (leaf "a") (leaf "b")) envAB st0).1 ≠ 0 ∧
    parse_command (.node .OP_CONDITIONAL_NZERO none (leaf "a") (leaf "b")) 0 .null envAB st0 =
      (7, st0, [.forkExec "a", .forkExec "b"]) := by
  have h := (or_skips_right_iff_left_succeeds (leaf "a") (leaf "b") none 0 .null envAB st0).2
    (by decide)
  exact ⟨by decide, h.trans rfl⟩

/-- Counterexample to claim C5: in `s5` the output and error targets are
distinct word objects that both name the file f, so they name the same
destination; yet `command_redirections` does not merge them — it takes
the separate branch (the source compares the two targets with pointer
equality, not by name), opening the destination for the output stream
first, in truncate mode, and then for the error stream, again in
truncate mode, never in append mode. -/
theorem same_named_targets_not_merged :
    get_word s5.out = get_word s5.err ∧
    s5.out ≠ s5.err ∧
    command_redirections s5 env0 st0 =
      ({ st0 with stdout := .file "f" flagsWCT, stderr := .file "f" flagsWCT },
       [Event.openFD "f" 1 flagsWCT true, Event.openFD "f" 2 flagsWCT true]) ∧
    flagsWCT.append = false := by
  exact ⟨rfl, by decide, rfl, rfl⟩

/-- Claim C5 (amended): for every simple command whose output and error
redirect targets are the same word object (pointer-identical, as the
merged redirect form produces — not merely naming the same
destination), applying redirections writes both streams into one file:
the destination is opened for the error stream in truncate mode, then
reopened for the output stream with the append flag set, so both
standard descriptors end bound to that one file; distinct target
objects get the independent redirections instead. -/
theorem merged_redirections_error_trunc_then_output_append
    (s : SimpleCommand) (w : Word) (f : String) (env : Env) (st : ShellState)
    (hout : s.out = some w) (herr : s.err = some w) (hf : w.str = some f) :
    (command_redirections s env st).2 =
      [Event.openFD f 2 flagsWCT (env.openOk f flagsWCT),
       Event.openFD f 1 flagsWCTA (env.openOk f flagsWCTA)] ∧
    flagsWCT.trunc = true ∧ flagsWCT.append = false ∧ flagsWCTA.append = true ∧
    (env.openOk f flagsWCT = true → env.openOk f flagsWCTA = true →
      (command_redirections s env st).1 =
        { st with stderr := .file f flagsWCT, stdout := .file f flagsWCTA }) := by
  have hcr : command_redirections s env st = both_redirections (some w) env st := by
    simp [command_redirections, hout, herr]
  rw [hcr, both_redirections_eq w f env st hf]
  refine ⟨rfl, rfl, rfl, rfl, ?_⟩
  intro h1 h2
  simp [h1, h2]

/-- Witness for the amended C5: the merged command `s10` (one shared
out/err word naming the file g) under the benign oracle: trace shows
the error-then-output opens and both streams end bound to g. -/
theorem merged_redirections_witness :
    s10.out = some wg ∧ s10.err = some wg ∧ wg.str = some "g" ∧
    (command_redirections s10 env0 st0).2 =
      [Event.openFD "g" 2 flagsWCT true, Event.openFD "g" 1 flagsWCTA true] ∧
    (command_redirections s10 env0 st0).1 =
      { st0 with stderr := .file "g" flagsWCT, stdout := .file "g" flagsWCTA } := by
  have h := merged_redirections_error_trunc_then_output_append s10 wg "g" env0 st0 rfl rfl rfl
  exact ⟨rfl, rfl, rfl, h.1, h.2.2.2.2 rfl rfl⟩

/-- Claim C10: when the output and error targets are taken to be
identical (the same word object), `command_redirections` performs only
the merged output/error redirection: the standard input binding is left
unchanged and no open ever targets descriptor 0, even when an input
redirect is present. -/
theorem merged_targets_skip_input (s : SimpleCommand) (w : Word)
    (env : Env) (st : ShellState) (hout : s.out = some w) (herr : s.err = some w) :
    (command_redirections s env st).1.stdin = st.stdin ∧
    ∀ name flags ok, Event.openFD name 0 flags ok ∉ (command_redirections s env st).2 := by
  have hcr : command_redirections s env st = both_redirections (some w) env st := by
    simp [command_redirections, hout, herr]
  rw [hcr]
  cases hf : w.str with
  | none =>
    rw [both_redirections_none w env st hf]
    exact ⟨rfl, by simp⟩
  | some f =>
    rw [both_redirections_eq w f env st hf]
    constructor
    · cases h1 : env.openOk f flagsWCT <;> cases h2 : env.openOk f flagsWCTA <;>
        simp [h1, h2]
    · intro name flags ok
      simp

/-- Witness for C10: `s10` has an input redirect present, yet with its
out and err the same word object the input binding stays untouched and
no open targets descriptor 0. -/
theorem merged_targets_skip_input_witness :
    s10.inp = some wh ∧ s10.out = some wg ∧ s10.err = some wg ∧
    (command_redirections s10 env0 st0).1.stdin = st0.stdin ∧
    ∀ name flags ok, Event.openFD name 0 flags ok ∉ (command_redirections s10 env0 st0).2 := by
  have h := merged_targets_skip_input s10 wg env0 st0 rfl rfl
  exact ⟨rfl, rfl, rfl, h.1, h.2⟩

/-- Evaluation of `parse_simple` on a cd command: the stdout and stderr
bindings are saved, the redirections applied, `shell_cd` run on the
params, and the saved stdout/stderr restored; the status is the
`bool`-to-`int` conversion of the `chdir` result. -/
theorem parse_simple_cd (s : SimpleCommand) (level : Nat) (father : Command)
    (env : Env) (st : ShellState) (hverb : get_word s.verb = some "cd") :
    parse_simple (some s) level father env st =
      ((if (shell_cd s.params env (command_redirections s env st).1).1 then 1 else 0),
       { (shell_cd s.params env (command_redirections s env st).1).2 with
           stdout := st.stdout, stderr := st.stderr },
       (command_redirections s env st).2) := by
  simp [parse_simple, hverb]

/-- Claim C9: for every leaf whose verb is cd, the evaluator's stdout
and stderr bindings after evaluation equal their pre-call values, for
every oracle (so regardless of whether the redirections or the
directory change succeed or fail); the status is 0 and the working
directory moves to the argument path when `chdir` succeeds, and the
status is 1 (non-zero) with the working directory unchanged when it
fails. -/
theorem cd_restores_streams_and_reports_chdir (s : SimpleCommand) (p : String)
    (level : Nat) (father : Command) (env : Env) (st : ShellState) (c1 c2 : Command)
    (hverb : get_word s.verb = some "cd") (hpath : get_word s.params = some p) :
    (parse_command (.node .OP_NONE (some s) c1 c2) level father env st).2.1.stdout =
      st.stdout ∧
    (parse_command (.node .OP_NONE (some s) c1 c2) level father env st).2.1.stderr =
      st.stderr ∧
    (env.chdirOk p = true →
      (parse_command (.node .OP_NONE (some s) c1 c2) level father env st).1 = 0 ∧
      (parse_command (.node .OP_NONE (some s) c1 c2) level father env st).2.1.cwd = p) ∧
    (env.chdirOk p = false →
      (parse_command (.node .OP_NONE (some s) c1 c2) level father env st).1 = 1 ∧
      (parse_command (.node .OP_NONE (some s) c1 c2) level father env st).2.1.cwd =
        st.cwd) := by
  have hpc : parse_command (.node .OP_NONE (some s) c1 c2) level father env st =
      parse_simple (some s) level (.node .OP_NONE (some s) c1 c2) env st := rfl
  rw [hpc, parse_simple_cd s level (.node .OP_NONE (some s) c1 c2) env st hverb]
  have hpath' : s.params.bind Word.str = some p := hpath
  refine ⟨rfl, rfl, ?_, ?_⟩
  · intro h
    simp [shell_cd, get_word, hpath', h]
  · intro h
    simp [shell_cd, get_word, hpath', h, command_redirections_cwd]

/-- Witness for C9: cd to /tmp under an oracle whose chdir fails:
stdout and stderr stay at their initial bindings, the status is 1 and
the working directory is unchanged. -/
theorem cd_restores_streams_witness :
    get_word s9cd.verb = some "cd" ∧ get_word s9cd.params = some "/tmp" ∧
    envNoCd.chdirOk "/tmp" = false ∧
    (parse_command (.node .OP_NONE (some s9cd) .null .null) 0 .null envNoCd st0).2.1.stdout =
      st0.stdout ∧
    (parse_command (.node .OP_NONE (some s9cd) .null .null) 0 .null envNoCd st0).2.1.stderr =
      st0.stderr ∧
    (parse_command (.node .OP_NONE (some s9cd) .null .null) 0 .null envNoCd st0).1 = 1 ∧
    (parse_command (.node .OP_NONE (some s9cd) .null .null) 0 .null envNoCd st0).2.1.cwd =
      st0.cwd := by
  have h := cd_restores_streams_and_reports_chdir s9cd "/tmp" 0 .null envNoCd st0 .null .null
    rfl rfl
  exact ⟨rfl, rfl, rfl, h.1, h.2.1, (h.2.2.2 rfl).1, (h.2.2.2 rfl).2⟩

end MiniShell
